import Mathlib

/-!
Verification of gpumon-go (a single-device GPU telemetry exporter) against
its specification.  The repository has two source files: `main.go` (the
CloudWatch-enabled variant) and an unnamed second file (`part_000`, the
console-only variant).  Both are shallowly embedded below.

Modelling conventions:
* The NVML library is an external collaborator.  It is modelled as a
  structure `Nvml` of oracle results: every library call the program makes
  returns a value together with a status code `Ret` (`0` = `nvml.SUCCESS`),
  exactly as in the Go binding.  `nvml.ErrorString` is an arbitrary function
  `Ret → String` carried by the model.
* Go `float32` arithmetic is modelled over `ℚ` with the exact formulas the
  source applies (`/ 1000`, `/ 2^30`); the concrete values the spec's tests
  use (e.g. 128000 mW) are exactly representable in `float32`, so the
  rational model agrees with the float computation there.
* A Go function returning `(T, error)` becomes a Lean function returning
  `T × Option String`; `log.Fatalf` (process termination) is a distinct
  constructor from an error return.
* `json.Marshal` of the flat `Metrics` struct is modelled at the object
  level: the ordered association list of (json tag, numeric value) pairs,
  taken field by field from the struct tags in the source.
-/

namespace Gpumon

/-- NVML status code; `0` is `nvml.SUCCESS`. -/
abbrev Ret := Nat

/-- `nvml.SUCCESS`. -/
def SUCCESS : Ret := 0

/-- Result of `device.GetMemoryInfo()`: total and used bytes (`uint64`). -/
structure MemoryInfo where
  Total : Nat
  Used : Nat
deriving Repr, DecidableEq

/-- Result of `device.GetUtilizationRates()`: GPU busy percent (`uint32`). -/
structure UtilizationRates where
  Gpu : Nat
deriving Repr, DecidableEq

/-- Model of one `nvml.Device` handle: the oracle results of every read the
program performs on it, each paired with its status code. -/
structure Handle where
  uuid : String × Ret
  temperature : Nat × Ret
  powerUsage : Nat × Ret
  memoryInfo : MemoryInfo × Ret
  utilizationRates : UtilizationRates × Ret
deriving Repr, DecidableEq

/-- Model of the NVML library: `ErrorString`, `DeviceGetCount` and
`DeviceGetHandleByIndex` as oracles. -/
structure Nvml where
  errorString : Ret → String
  deviceCount : Int × Ret
  deviceHandle : Int → Handle × Ret

/-- The `Device` struct of `main.go`. -/
structure Device where
  Index : Int
  UUID : String
  Handle : Handle
deriving Repr, DecidableEq

/-- The `Metrics` struct of `main.go` (numeric fields only; `float32`
fields modelled over `ℚ`). -/
structure Metrics where
  Temperature : Nat
  Power : ℚ
  GpuUsage : Nat
  MemoryTotal : ℚ
  MemoryUsed : ℚ
deriving Repr, DecidableEq

/-- `Metrics{}` — the Go zero value returned alongside every error. -/
def emptyMetrics : Metrics :=
  { Temperature := 0, Power := 0, GpuUsage := 0, MemoryTotal := 0, MemoryUsed := 0 }

/-- Outcome of `GetDevice`: Go distinguishes `log.Fatalf` (immediate process
termination) from returning `(Device{}, err)`. -/
inductive GetDeviceResult where
  | fatal (msg : String)
  | err (msg : String)
  | ok (d : Device)
deriving Repr, DecidableEq

/-- `GetDevice` from `main.go` (identical in both source files):
count lookup, the bounds check `count <= index-1`, handle resolution,
then UUID lookup. -/
def GetDevice (lib : Nvml) (index : Int) : GetDeviceResult :=
  let (count, ret) := lib.deviceCount
  if ret ≠ SUCCESS then
    .fatal ("Unable to get device count: " ++ lib.errorString ret)
  else if count ≤ index - 1 then
    .fatal "Device index out of range"
  else
    let (device, ret) := lib.deviceHandle index
    if ret ≠ SUCCESS then
      .err ("unable to get device at index " ++ toString index ++ ": " ++ lib.errorString ret)
    else
      let (uuid, ret) := device.uuid
      if ret ≠ SUCCESS then
        .err ("unable to get uuid of device at index " ++ toString index ++ ": " ++ lib.errorString ret)
      else
        .ok { Index := index, UUID := uuid, Handle := device }

/-- `deviceHandleErrorString`: `fmt.Errorf("%s", nvml.ErrorString(ret))`. -/
def deviceHandleErrorString (lib : Nvml) (ret : Ret) : String :=
  lib.errorString ret

/-- `Device.GetTemperature`. -/
def GetTemperature (lib : Nvml) (d : Device) : Nat × Option String :=
  let (temp, ret) := d.Handle.temperature
  if ret ≠ SUCCESS then (0, some (deviceHandleErrorString lib ret))
  else (temp, none)

/-- `Device.GetPower`: raw milliwatts divided by 1000. -/
def GetPower (lib : Nvml) (d : Device) : ℚ × Option String :=
  let (power, ret) := d.Handle.powerUsage
  if ret ≠ SUCCESS then (0, some (deviceHandleErrorString lib ret))
  else ((power : ℚ) / 1000, none)

/-- `Device.GetUtilization`: memory info (bytes divided by `1 <<< 30`),
then utilization rates. -/
def GetUtilization (lib : Nvml) (d : Device) : Nat × ℚ × ℚ × Option String :=
  let (memory, ret) := d.Handle.memoryInfo
  if ret ≠ SUCCESS then (0, 0, 0, some (deviceHandleErrorString lib ret))
  else
    let total : ℚ := (memory.Total : ℚ) / (2 ^ 30 : ℚ)
    let used : ℚ := (memory.Used : ℚ) / (2 ^ 30 : ℚ)
    let (util, ret) := d.Handle.utilizationRates
    if ret ≠ SUCCESS then (0, 0, 0, some (deviceHandleErrorString lib ret))
    else (util.Gpu, total, used, none)

/-- `Device.GetMetrics`: temperature, power, then utilization; any failure
returns `(Metrics{}, err)`. -/
def GetMetrics (lib : Nvml) (d : Device) : Metrics × Option String :=
  let (temp, err) := GetTemperature lib d
  match err with
  | some e => (emptyMetrics, some e)
  | none =>
    let (power, err) := GetPower lib d
    match err with
    | some e => (emptyMetrics, some e)
    | none =>
      let (gpu, totalMemory, usedMemory, err) := GetUtilization lib d
      match err with
      | some e => (emptyMetrics, some e)
      | none =>
        ({ Temperature := temp, Power := power, GpuUsage := gpu,
           MemoryTotal := totalMemory, MemoryUsed := usedMemory }, none)

/-- `json.Marshal` of `Metrics` in `main.go`, at the object level: the
ordered (json tag, value) pairs given by the struct tags
`temperature, power, gpu_usage, memory_total, memory_used`. -/
def metricsJson (m : Metrics) : List (String × ℚ) :=
  [("temperature", (m.Temperature : ℚ)),
   ("power", m.Power),
   ("gpu_usage", (m.GpuUsage : ℚ)),
   ("memory_total", m.MemoryTotal),
   ("memory_used", m.MemoryUsed)]

/-- `json.Marshal` of `Metrics` in the second source file (`part_000`),
whose struct tag on the `MemoryUsed` field is `memory_available`. -/
def metricsJsonAlt (m : Metrics) : List (String × ℚ) :=
  [("temperature", (m.Temperature : ℚ)),
   ("power", m.Power),
   ("gpu_usage", (m.GpuUsage : ℚ)),
   ("memory_total", m.MemoryTotal),
   ("memory_available", m.MemoryUsed)]

/-- Decimal digit character for `d % 10`. -/
def digitChar (d : Nat) : Char :=
  Char.ofNat (48 + d % 10)

/-- Decimal digit list, most significant first, with explicit recursion
fuel (`fuel ≥ 1` and `n < 10 ^ fuel` make it exact). -/
def natDigitsAux : Nat → Nat → List Char
  | 0, _ => []
  | fuel + 1, n =>
    if n < 10 then [digitChar n]
    else natDigitsAux fuel (n / 10) ++ [digitChar (n % 10)]

/-- Decimal digit list of a natural number, most significant first
(the digits `%d` prints); `n` itself is always enough fuel. -/
def natDigits (n : Nat) : List Char :=
  natDigitsAux (n + 1) n

/-- `%d` on an unsigned integer: its decimal digit string. -/
def natRepr (n : Nat) : String :=
  String.mk (natDigits n)

/-- Exactly `k` decimal digits of `n`, most significant first, zero-padded
(the fraction part `%.kf` prints). -/
def fixedDigits (n : Nat) : Nat → List Char
  | 0 => []
  | k + 1 => fixedDigits (n / 10) k ++ [digitChar (n % 10)]

/-- Round a rational to the nearest integer, ties to even — the rounding
`fmt` applies when printing a float at fixed precision. -/
def roundHalfEven (q : ℚ) : Int :=
  let f := q.floor
  if q - f < 1 / 2 then f
  else if q - f > 1 / 2 then f + 1
  else if f % 2 = 0 then f else f + 1

/-- The value scaled by `10^k` and rounded to an integer. -/
def roundScaled (q : ℚ) (k : Nat) : Int :=
  roundHalfEven (q * (10 : ℚ) ^ k)

/-- `%.kf`: the scaled and rounded value printed as sign, integer part,
a dot, and exactly `k` fraction digits. -/
def formatFixed (q : ℚ) (k : Nat) : String :=
  String.mk
    (((if roundScaled q k < 0 then ['-'] else []) ++
        natDigits ((roundScaled q k).natAbs / 10 ^ k)) ++
      '.' :: fixedDigits ((roundScaled q k).natAbs % 10 ^ k) k)

/-- `Metrics.String`:
`fmt.Sprintf("%d,%.2f,%d,%.1f,%.2f", Temperature, Power, GpuUsage, MemoryTotal, MemoryUsed)`
(identical in both source files). -/
def metricsString (m : Metrics) : String :=
  natRepr m.Temperature ++ "," ++ formatFixed m.Power 2 ++ "," ++
    natRepr m.GpuUsage ++ "," ++ formatFixed m.MemoryTotal 1 ++ "," ++
    formatFixed m.MemoryUsed 2

/-- Split a character list at every comma (for parsing the delimited
serialization back into its fields). -/
def splitComma (acc : List Char) : List Char → List (List Char)
  | [] => [acc.reverse]
  | c :: cs => if c = ',' then acc.reverse :: splitComma [] cs else splitComma (c :: acc) cs

/-- Comma-separated fields of a string. -/
def commaFields (s : String) : List String :=
  (splitComma [] s.data).map String.mk

/-- Number of characters after the last dot of a string, if it has one
(how many decimal places a numeral is rendered to). -/
def decimalPlaces (s : String) : Option Nat :=
  if '.' ∈ s.data.reverse then some (s.data.reverse.takeWhile (fun c => c ≠ '.')).length
  else none

/-- A CloudWatch `types.Dimension`. -/
structure Dimension where
  Name : String
  Value : String
deriving Repr, DecidableEq

/-- A CloudWatch `types.MetricDatum` (the fields the program sets). -/
structure MetricDatum where
  MetricName : String
  Dimensions : List Dimension
  Unit : String
  StorageResolution : Int
  Value : ℚ
deriving Repr, DecidableEq

/-- A `cloudwatch.PutMetricDataInput` (the fields the program sets). -/
structure PutMetricDataInput where
  MetricData : List MetricDatum
  Namespace : String
deriving Repr, DecidableEq

/-- The dimension list `PublishCloudwatchMetrics` builds: instance id
(under the name `InstancesId`, as spelled in the source) and instance
type. -/
def publishDimensions (instanceID instanceType : String) : List Dimension :=
  [{ Name := "InstancesId", Value := instanceID },
   { Name := "InstanceType", Value := instanceType }]

/-- The four metric data `PublishCloudwatchMetrics` builds from one
record. -/
def publishMetricData (m : Metrics) (instanceID instanceType : String)
    (resolution : Int) : List MetricDatum :=
  let dimensions := publishDimensions instanceID instanceType
  [{ MetricName := "GPU Usage", Dimensions := dimensions, Unit := "Percent",
     StorageResolution := resolution, Value := (m.GpuUsage : ℚ) },
   { MetricName := "Memory Used", Dimensions := dimensions, Unit := "Megabytes",
     StorageResolution := resolution, Value := m.MemoryUsed },
   { MetricName := "Temperature (C)", Dimensions := dimensions, Unit := "None",
     StorageResolution := resolution, Value := (m.Temperature : ℚ) },
   { MetricName := "Power (W)", Dimensions := dimensions, Unit := "None",
     StorageResolution := resolution, Value := (m.Power : ℚ) }]

/-- The single `cloudwatch.PutMetricDataInput` the program builds from one
record. -/
def publishInput (m : Metrics) (instanceID instanceType : String)
    (resolution : Int) (ns : String) : PutMetricDataInput :=
  { MetricData := publishMetricData m instanceID instanceType resolution,
    Namespace := ns }

/-- `PublishCloudwatchMetrics`: builds the input, performs one
`PutMetricData` call through the client (modelled as an oracle `put`),
and wraps a failure.  The first component records every call made to the
client, in order. -/
def PublishCloudwatchMetrics (put : PutMetricDataInput → Option String)
    (m : Metrics) (instanceID instanceType : String) (resolution : Int)
    (ns : String) : List PutMetricDataInput × Option String :=
  let input := publishInput m instanceID instanceType resolution ns
  match put input with
  | some e => ([input], some ("Unable to publish metrics to CloudWatch: " ++ e))
  | none => ([input], none)

/-- Observable event of one trip through the sampling loop body. -/
inductive Event where
  | emit (record : List (String × ℚ))
  | sleepSeconds (n : Nat)
deriving Repr, DecidableEq

/-- Whether the loop is still running after the observed prefix, or was
terminated by `log.Fatalf`. -/
inductive LoopOutcome where
  | running
  | fatal (msg : String)
deriving Repr, DecidableEq

/-- The infinite `for` loop of `main`, observed for `n` iterations: each
iteration samples `GetMetrics`, terminates fatally on error, otherwise
prints the marshalled record and sleeps 5 seconds. -/
def loopTrace (lib : Nvml) (d : Device) : Nat → List Event × LoopOutcome
  | 0 => ([], .running)
  | n + 1 =>
    match GetMetrics lib d with
    | (_, some e) => ([], .fatal ("Unable to get metrics: " ++ e))
    | (m, none) =>
      let (rest, out) := loopTrace lib d n
      (.emit (metricsJson m) :: .sleepSeconds 5 :: rest, out)

/-- The loop of the second source file (`part_000`): identical control flow,
but the marshalled record carries that file's struct tags. -/
def loopTraceAlt (lib : Nvml) (d : Device) : Nat → List Event × LoopOutcome
  | 0 => ([], .running)
  | n + 1 =>
    match GetMetrics lib d with
    | (_, some e) => ([], .fatal ("Unable to get metrics: " ++ e))
    | (m, none) =>
      let (rest, out) := loopTraceAlt lib d n
      (.emit (metricsJsonAlt m) :: .sleepSeconds 5 :: rest, out)

/-- Field names of the record an `emit` event carries, if the event is an
emission. -/
def emittedNames : Event → Option (List String)
  | .emit record => some (record.map Prod.fst)
  | .sleepSeconds _ => none

/-! ### Concrete fixtures used by counterexamples and witnesses -/

/-- A handle whose every read succeeds with fixed values: 65 °C, 128000 mW,
16 GiB total and 2 GiB used memory, 97 % utilization. -/
def stubHandle : Handle :=
  { uuid := ("GPU-5f32c923", SUCCESS),
    temperature := (65, SUCCESS),
    powerUsage := (128000, SUCCESS),
    memoryInfo := ({ Total := 17179869184, Used := 2147483648 }, SUCCESS),
    utilizationRates := ({ Gpu := 97 }, SUCCESS) }

/-- A library reporting exactly one device and resolving every index to
`stubHandle`. -/
def stubLib : Nvml :=
  { errorString := fun ret => "Unknown Error " ++ natRepr ret,
    deviceCount := (1, SUCCESS),
    deviceHandle := fun _ => (stubHandle, SUCCESS) }

/-- The device `GetDevice stubLib 0` yields. -/
def stubDevice : Device :=
  { Index := 0, UUID := "GPU-5f32c923", Handle := stubHandle }

/-- The record `GetMetrics stubLib stubDevice` yields, written with the
exact conversion expressions of the source. -/
def stubRecord : Metrics :=
  { Temperature := 65,
    Power := ((128000 : Nat) : ℚ) / 1000,
    GpuUsage := 97,
    MemoryTotal := ((17179869184 : Nat) : ℚ) / (2 ^ 30 : ℚ),
    MemoryUsed := ((2147483648 : Nat) : ℚ) / (2 ^ 30 : ℚ) }

/-- A handle whose every read fails with status code 999. -/
def failHandle : Handle :=
  { uuid := ("", 999),
    temperature := (65, 999),
    powerUsage := (128000, 999),
    memoryInfo := ({ Total := 17179869184, Used := 2147483648 }, 999),
    utilizationRates := ({ Gpu := 97 }, 999) }

/-- A failing device built over `failHandle`. -/
def failDevice : Device :=
  { Index := 0, UUID := "GPU-5f32c923", Handle := failHandle }

/-- A handle whose reads succeed except for the utilization-rates read,
which fails with status code 999. -/
def utilFailHandle : Handle :=
  { uuid := ("GPU-5f32c923", SUCCESS),
    temperature := (65, SUCCESS),
    powerUsage := (128000, SUCCESS),
    memoryInfo := ({ Total := 17179869184, Used := 2147483648 }, SUCCESS),
    utilizationRates := ({ Gpu := 97 }, 999) }

/-- A device built over `utilFailHandle`. -/
def utilFailDevice : Device :=
  { Index := 0, UUID := "GPU-5f32c923", Handle := utilFailHandle }

/-- A CloudWatch client whose `PutMetricData` call succeeds. -/
def okPut : PutMetricDataInput → Option String := fun _ => none

/-- A CloudWatch client whose `PutMetricData` call fails with an
access-denied transport error. -/
def failPut : PutMetricDataInput → Option String := fun _ => some "AccessDenied"

/-! ### Character-level facts about the numeral renderers -/

/-- Every character `digitChar` produces is a decimal digit, hence neither
a comma nor a dot. -/
theorem digitChar_ne (d : Nat) : digitChar d ≠ ',' ∧ digitChar d ≠ '.' := by
  have h : d % 10 = 0 ∨ d % 10 = 1 ∨ d % 10 = 2 ∨ d % 10 = 3 ∨ d % 10 = 4 ∨
      d % 10 = 5 ∨ d % 10 = 6 ∨ d % 10 = 7 ∨ d % 10 = 8 ∨ d % 10 = 9 := by omega
  unfold digitChar
  rcases h with h | h | h | h | h | h | h | h | h | h <;> rw [h] <;> exact ⟨by decide, by decide⟩

/-- Every character of `natDigitsAux` is a digit character. -/
theorem natDigitsAux_chars (fuel n : Nat) :
    ∀ c ∈ natDigitsAux fuel n, c ≠ ',' ∧ c ≠ '.' := by
  induction fuel generalizing n with
  | zero => intro c hc; simp [natDigitsAux] at hc
  | succ fuel ih =>
    intro c hc
    rw [natDigitsAux] at hc
    by_cases h : n < 10
    · simp [h] at hc
      exact hc ▸ digitChar_ne n
    · simp [h, List.mem_append] at hc
      rcases hc with hc | hc
      · exact ih (n / 10) c hc
      · exact hc ▸ digitChar_ne (n % 10)

/-- Every character of `natDigits` is a digit character. -/
theorem natDigits_chars (n : Nat) : ∀ c ∈ natDigits n, c ≠ ',' ∧ c ≠ '.' :=
  natDigitsAux_chars (n + 1) n

/-- Every character of `fixedDigits` is a digit character. -/
theorem fixedDigits_chars (n k : Nat) :
    ∀ c ∈ fixedDigits n k, c ≠ ',' ∧ c ≠ '.' := by
  induction k generalizing n with
  | zero => intro c hc; simp [fixedDigits] at hc
  | succ k ih =>
    intro c hc
    rw [fixedDigits] at hc
    simp [List.mem_append] at hc
    rcases hc with hc | hc
    · exact ih (n / 10) c hc
    · exact hc ▸ digitChar_ne (n % 10)

/-- `fixedDigits` always has exactly `k` characters. -/
theorem fixedDigits_length (n k : Nat) : (fixedDigits n k).length = k := by
  induction k generalizing n with
  | zero => rfl
  | succ k ih => rw [fixedDigits]; simp [ih]

/-- No character of a `formatFixed` rendering is a comma. -/
theorem formatFixed_no_comma (q : ℚ) (k : Nat) :
    ∀ c ∈ (formatFixed q k).data, c ≠ ',' := by
  intro c hc
  unfold formatFixed at hc
  simp only [List.mem_append, List.mem_cons] at hc
  rcases hc with (hc | hc) | hc | hc
  · by_cases hs : roundScaled q k < 0 <;> simp [hs] at hc
    subst hc; decide
  · exact (natDigits_chars _ c hc).1
  · subst hc; decide
  · exact (fixedDigits_chars _ _ c hc).1

/-- No character of a `natRepr` rendering is a comma. -/
theorem natRepr_no_comma (n : Nat) : ∀ c ∈ (natRepr n).data, c ≠ ',' :=
  fun c hc => (natDigits_chars n c hc).1

/-! ### Splitting on commas and counting decimal places -/

/-- `splitComma` consumes a comma-free chunk up to the first comma. -/
theorem splitComma_append (a : List Char) (b : List Char) (acc : List Char)
    (h : ∀ c ∈ a, c ≠ ',') :
    splitComma acc (a ++ ',' :: b) = (acc.reverse ++ a) :: splitComma [] b := by
  induction a generalizing acc with
  | nil => simp [splitComma]
  | cons x xs ih =>
    have hx : x ≠ ',' := h x (List.mem_cons_self x xs)
    simp only [List.cons_append, splitComma, if_neg hx, List.append_eq]
    rw [ih (x :: acc) (fun c hc => h c (List.mem_cons_of_mem x hc))]
    simp

/-- `splitComma` on a comma-free list yields a single chunk. -/
theorem splitComma_no_comma (a : List Char) (acc : List Char)
    (h : ∀ c ∈ a, c ≠ ',') :
    splitComma acc a = [acc.reverse ++ a] := by
  induction a generalizing acc with
  | nil => simp [splitComma]
  | cons x xs ih =>
    have hx : x ≠ ',' := h x (List.mem_cons_self x xs)
    simp only [splitComma, if_neg hx]
    rw [ih (x :: acc) (fun c hc => h c (List.mem_cons_of_mem x hc))]
    simp

/-- `takeWhile` stops exactly at the first failing element. -/
theorem takeWhile_append_cons (p : Char → Bool) (a : List Char) (x : Char)
    (b : List Char) (ha : ∀ c ∈ a, p c = true) (hx : p x = false) :
    (a ++ x :: b).takeWhile p = a := by
  induction a with
  | nil => simp [List.takeWhile, hx]
  | cons y ys ih =>
    have hy : p y = true := ha y (List.mem_cons_self y ys)
    simp only [List.cons_append, List.takeWhile, hy, List.append_eq]
    rw [ih (fun c hc => ha c (List.mem_cons_of_mem y hc))]

/-- Rebuilding a string from its characters is the identity. -/
theorem string_mk_data (s : String) : String.mk s.data = s := rfl

/-- A string ending in a dot followed by `fd` dot-free characters is
rendered to exactly `fd.length` decimal places. -/
theorem decimalPlaces_mk (pre fd : List Char) (hfd : ∀ c ∈ fd, c ≠ '.') :
    decimalPlaces (String.mk (pre ++ '.' :: fd)) = some fd.length := by
  unfold decimalPlaces
  have hrev : (String.mk (pre ++ '.' :: fd)).data.reverse =
      fd.reverse ++ '.' :: pre.reverse := by
    simp [List.reverse_append]
  rw [hrev]
  have hmem : '.' ∈ fd.reverse ++ '.' :: pre.reverse := by simp
  rw [if_pos hmem]
  rw [takeWhile_append_cons _ _ _ _
    (fun c hc => by simp [hfd c (List.mem_reverse.mp hc)]) (by simp)]
  simp

/-- A `formatFixed` rendering at precision `k` has exactly `k` decimal
places. -/
theorem decimalPlaces_formatFixed (q : ℚ) (k : Nat) :
    decimalPlaces (formatFixed q k) = some k := by
  unfold formatFixed
  rw [decimalPlaces_mk _ _ (fun c hc => (fixedDigits_chars _ _ c hc).2),
    fixedDigits_length]

/-- A `natRepr` rendering has no decimal places at all. -/
theorem decimalPlaces_natRepr (n : Nat) : decimalPlaces (natRepr n) = none := by
  unfold decimalPlaces
  rw [if_neg]
  intro hmem
  exact (natDigits_chars n '.' (List.mem_reverse.mp hmem)).2 rfl

/-- The comma-separated fields of the delimited serialization are exactly
the five renderings, in source order. -/
theorem commaFields_metricsString (m : Metrics) :
    commaFields (metricsString m) =
      [natRepr m.Temperature, formatFixed m.Power 2, natRepr m.GpuUsage,
       formatFixed m.MemoryTotal 1, formatFixed m.MemoryUsed 2] := by
  unfold commaFields metricsString
  have hcomma : ("," : String).data = [','] := rfl
  rw [show (natRepr m.Temperature ++ "," ++ formatFixed m.Power 2 ++ "," ++
      natRepr m.GpuUsage ++ "," ++ formatFixed m.MemoryTotal 1 ++ "," ++
      formatFixed m.MemoryUsed 2).data =
      (natRepr m.Temperature).data ++ ',' :: ((formatFixed m.Power 2).data ++
        ',' :: ((natRepr m.GpuUsage).data ++
          ',' :: ((formatFixed m.MemoryTotal 1).data ++
            ',' :: (formatFixed m.MemoryUsed 2).data))) from by
    simp [String.data_append, hcomma]]
  rw [splitComma_append _ _ _ (natRepr_no_comma _),
    splitComma_append _ _ _ (formatFixed_no_comma _ _),
    splitComma_append _ _ _ (natRepr_no_comma _),
    splitComma_append _ _ _ (formatFixed_no_comma _ _),
    splitComma_no_comma _ _ (formatFixed_no_comma _ _)]
  simp [string_mk_data]

/-! ### The claims -/

/-- Claim C1 (code bug): the bounds check `count <= index-1` is off by one.
With one device (count = 1), the out-of-range index 1 is not rejected:
`GetDevice` goes on to resolve a handle and read its UUID, and succeeds,
instead of failing with the out-of-range error before any resolution.
Only indices strictly greater than the count hit the fatal check. -/
theorem getDevice_bounds_check_off_by_one :
    GetDevice stubLib 1 =
      .ok { Index := 1, UUID := "GPU-5f32c923", Handle := stubHandle } ∧
    GetDevice stubLib 2 = .fatal "Device index out of range" := by
  exact ⟨rfl, rfl⟩

/-- Claim C2, counterexample: the `part_000` loop emits a record whose
fifth field is named `memory_available`, not `memory_used`, so the claimed
field set does not hold for every emitted object. -/
theorem partZeroLoop_fifth_field_is_memory_available :
    (loopTraceAlt stubLib stubDevice 1).1.map emittedNames =
      [some ["temperature", "power", "gpu_usage", "memory_total", "memory_available"],
       none] ∧
    (metricsJsonAlt stubRecord).map Prod.fst ≠
      ["temperature", "power", "gpu_usage", "memory_total", "memory_used"] := by
  exact ⟨rfl, by decide⟩

/-- Claim C2 (amended): every record the `main.go` loop emits is serialized
with exactly the fields `temperature`, `power`, `gpu_usage`,
`memory_total`, `memory_used` carrying the record's five values, while the
`part_000` loop names the fifth field `memory_available` instead. -/
theorem loop_json_field_names (lib : Nvml) (d : Device) (m : Metrics) (n : Nat)
    (h : GetMetrics lib d = (m, none)) :
    (loopTrace lib d (n + 1)).1.head? = some (.emit (metricsJson m)) ∧
    (metricsJson m).map Prod.fst =
      ["temperature", "power", "gpu_usage", "memory_total", "memory_used"] ∧
    (metricsJson m).map Prod.snd =
      [(m.Temperature : ℚ), m.Power, (m.GpuUsage : ℚ), m.MemoryTotal, m.MemoryUsed] ∧
    (loopTraceAlt lib d (n + 1)).1.head? = some (.emit (metricsJsonAlt m)) ∧
    (metricsJsonAlt m).map Prod.fst =
      ["temperature", "power", "gpu_usage", "memory_total", "memory_available"] ∧
    (metricsJsonAlt m).map Prod.snd =
      [(m.Temperature : ℚ), m.Power, (m.GpuUsage : ℚ), m.MemoryTotal, m.MemoryUsed] := by
  rcases hrest : loopTrace lib d n with ⟨rest, out⟩
  rcases hrestAlt : loopTraceAlt lib d n with ⟨restAlt, outAlt⟩
  exact ⟨by simp [loopTrace, h, hrest], rfl, rfl,
    by simp [loopTraceAlt, h, hrestAlt], rfl, rfl⟩

/-- Witness for the amended claim C2 at the stub device. -/
theorem loop_json_field_names_witness :
    (loopTrace stubLib stubDevice 1).1.head? = some (.emit (metricsJson stubRecord)) ∧
    (metricsJson stubRecord).map Prod.fst =
      ["temperature", "power", "gpu_usage", "memory_total", "memory_used"] ∧
    (metricsJson stubRecord).map Prod.snd =
      [(stubRecord.Temperature : ℚ), stubRecord.Power, (stubRecord.GpuUsage : ℚ),
       stubRecord.MemoryTotal, stubRecord.MemoryUsed] ∧
    (loopTraceAlt stubLib stubDevice 1).1.head? = some (.emit (metricsJsonAlt stubRecord)) ∧
    (metricsJsonAlt stubRecord).map Prod.fst =
      ["temperature", "power", "gpu_usage", "memory_total", "memory_available"] ∧
    (metricsJsonAlt stubRecord).map Prod.snd =
      [(stubRecord.Temperature : ℚ), stubRecord.Power, (stubRecord.GpuUsage : ℚ),
       stubRecord.MemoryTotal, stubRecord.MemoryUsed] :=
  loop_json_field_names stubLib stubDevice stubRecord 0 rfl

/-- Claim C5: `PublishCloudwatchMetrics` performs exactly one batched
`PutMetricData` call whose payload is exactly four named metric data —
GPU usage, used memory, temperature, power — each carrying the same
instance-identity dimensions and the configured storage resolution. -/
theorem publish_builds_four_data_one_call (put : PutMetricDataInput → Option String)
    (m : Metrics) (instanceID instanceType : String) (resolution : Int) (ns : String) :
    (PublishCloudwatchMetrics put m instanceID instanceType resolution ns).1 =
      [publishInput m instanceID instanceType resolution ns] ∧
    (publishInput m instanceID instanceType resolution ns).MetricData =
      publishMetricData m instanceID instanceType resolution ∧
    (publishMetricData m instanceID instanceType resolution).length = 4 ∧
    (publishMetricData m instanceID instanceType resolution).map MetricDatum.MetricName =
      ["GPU Usage", "Memory Used", "Temperature (C)", "Power (W)"] ∧
    (publishMetricData m instanceID instanceType resolution).map MetricDatum.Value =
      [(m.GpuUsage : ℚ), m.MemoryUsed, (m.Temperature : ℚ), m.Power] ∧
    (publishMetricData m instanceID instanceType resolution).map MetricDatum.Dimensions =
      List.replicate 4 (publishDimensions instanceID instanceType) ∧
    (publishMetricData m instanceID instanceType resolution).map MetricDatum.StorageResolution =
      List.replicate 4 resolution := by
  refine ⟨?_, rfl, rfl, rfl, rfl, rfl, rfl⟩
  cases h : put (publishInput m instanceID instanceType resolution ns) with
  | none => simp [PublishCloudwatchMetrics, h]
  | some e => simp [PublishCloudwatchMetrics, h]

/-- Claim C6: a failing `PutMetricData` call makes
`PublishCloudwatchMetrics` return an error wrapping the transport failure,
a succeeding call makes it return nil, and in either case exactly one call
is made (no retry). -/
theorem publish_error_wrapping (put : PutMetricDataInput → Option String)
    (m : Metrics) (instanceID instanceType : String) (resolution : Int) (ns : String) :
    (put (publishInput m instanceID instanceType resolution ns) = none →
      PublishCloudwatchMetrics put m instanceID instanceType resolution ns =
        ([publishInput m instanceID instanceType resolution ns], none)) ∧
    (∀ e, put (publishInput m instanceID instanceType resolution ns) = some e →
      PublishCloudwatchMetrics put m instanceID instanceType resolution ns =
        ([publishInput m instanceID instanceType resolution ns],
         some ("Unable to publish metrics to CloudWatch: " ++ e))) := by
  constructor
  · intro h; simp [PublishCloudwatchMetrics, h]
  · intro e h; simp [PublishCloudwatchMetrics, h]

/-- Witness for claim C6: one succeeding and one failing client. -/
theorem publish_error_wrapping_witness :
    PublishCloudwatchMetrics okPut stubRecord "i-.0" "g4dn" 1 "GPU" =
      ([publishInput stubRecord "i-.0" "g4dn" 1 "GPU"], none) ∧
    PublishCloudwatchMetrics failPut stubRecord "i-.0" "g4dn" 1 "GPU" =
      ([publishInput stubRecord "i-.0" "g4dn" 1 "GPU"],
       some ("Unable to publish metrics to CloudWatch: " ++ "AccessDenied")) :=
  ⟨(publish_error_wrapping okPut stubRecord "i-.0" "g4dn" 1 "GPU").1 rfl,
   (publish_error_wrapping failPut stubRecord "i-.0" "g4dn" 1 "GPU").2 "AccessDenied" rfl⟩

/-- Claim C10: the delimited serialization lists exactly the five values in
the order temperature, power, gpu usage, memory total, memory used,
separated by commas, with power and used memory rendered to two decimal
places, total memory to one, and the integer fields to none. -/
theorem metricsString_fields (m : Metrics) :
    commaFields (metricsString m) =
      [natRepr m.Temperature, formatFixed m.Power 2, natRepr m.GpuUsage,
       formatFixed m.MemoryTotal 1, formatFixed m.MemoryUsed 2] ∧
    decimalPlaces (formatFixed m.Power 2) = some 2 ∧
    decimalPlaces (formatFixed m.MemoryTotal 1) = some 1 ∧
    decimalPlaces (formatFixed m.MemoryUsed 2) = some 2 ∧
    decimalPlaces (natRepr m.Temperature) = none ∧
    decimalPlaces (natRepr m.GpuUsage) = none :=
  ⟨commaFields_metricsString m, decimalPlaces_formatFixed _ 2,
   decimalPlaces_formatFixed _ 1, decimalPlaces_formatFixed _ 2,
   decimalPlaces_natRepr _, decimalPlaces_natRepr _⟩

/-- Claim C3: on a successful sample the record carries the library's raw
values after unit conversion — temperature and utilization unchanged,
power in milliwatts divided by 1000, memory bytes divided by `2^30`. -/
theorem getMetrics_unit_conversion (lib : Nvml) (d : Device)
    (hT : d.Handle.temperature.2 = SUCCESS)
    (hP : d.Handle.powerUsage.2 = SUCCESS)
    (hM : d.Handle.memoryInfo.2 = SUCCESS)
    (hU : d.Handle.utilizationRates.2 = SUCCESS) :
    GetMetrics lib d =
      ({ Temperature := d.Handle.temperature.1,
         Power := (d.Handle.powerUsage.1 : ℚ) / 1000,
         GpuUsage := d.Handle.utilizationRates.1.Gpu,
         MemoryTotal := (d.Handle.memoryInfo.1.Total : ℚ) / (2 ^ 30 : ℚ),
         MemoryUsed := (d.Handle.memoryInfo.1.Used : ℚ) / (2 ^ 30 : ℚ) }, none) := by
  rcases e1 : d.Handle.temperature with ⟨temp, retT⟩
  rcases e2 : d.Handle.powerUsage with ⟨power, retP⟩
  rcases e3 : d.Handle.memoryInfo with ⟨memory, retM⟩
  rcases e4 : d.Handle.utilizationRates with ⟨util, retU⟩
  rw [e1] at hT
  rw [e2] at hP
  rw [e3] at hM
  rw [e4] at hU
  simp only at hT hP hM hU
  subst hT hP hM hU
  simp [GetMetrics, GetTemperature, GetPower, GetUtilization, e1, e2, e3, e4]

/-- Witness for claim C3: the stub device's 128000 mW become 128 W, its
16 GiB total and 2 GiB used bytes become 16 and 2. -/
theorem getMetrics_unit_conversion_witness :
    GetMetrics stubLib stubDevice =
      ({ Temperature := 65, Power := 128, GpuUsage := 97,
         MemoryTotal := 16, MemoryUsed := 2 }, none) := by
  have h := getMetrics_unit_conversion stubLib stubDevice rfl rfl rfl rfl
  rw [h]
  norm_num [stubDevice, stubHandle, Metrics.mk.injEq]

/-- Claim C4: if any one of the underlying reads fails, `GetMetrics`
returns the empty record together with an error — never a partial
record. -/
theorem getMetrics_no_partial_record (lib : Nvml) (d : Device)
    (h : d.Handle.temperature.2 ≠ SUCCESS ∨ d.Handle.powerUsage.2 ≠ SUCCESS ∨
      d.Handle.memoryInfo.2 ≠ SUCCESS ∨ d.Handle.utilizationRates.2 ≠ SUCCESS) :
    ∃ e, GetMetrics lib d = (emptyMetrics, some e) := by
  by_cases hT : d.Handle.temperature.2 = SUCCESS
  · by_cases hP : d.Handle.powerUsage.2 = SUCCESS
    · by_cases hM : d.Handle.memoryInfo.2 = SUCCESS
      · by_cases hU : d.Handle.utilizationRates.2 = SUCCESS
        · rcases h with h | h | h | h <;> contradiction
        · exact ⟨deviceHandleErrorString lib d.Handle.utilizationRates.2,
            by simp [GetMetrics, GetTemperature, GetPower, GetUtilization,
              deviceHandleErrorString, hT, hP, hM, hU]⟩
      · exact ⟨deviceHandleErrorString lib d.Handle.memoryInfo.2,
          by simp [GetMetrics, GetTemperature, GetPower, GetUtilization,
            deviceHandleErrorString, hT, hP, hM]⟩
    · exact ⟨deviceHandleErrorString lib d.Handle.powerUsage.2,
        by simp [GetMetrics, GetTemperature, GetPower, deviceHandleErrorString, hT, hP]⟩
  · exact ⟨deviceHandleErrorString lib d.Handle.temperature.2,
      by simp [GetMetrics, GetTemperature, deviceHandleErrorString, hT]⟩

/-- Witness for claim C4: a device whose temperature read fails yields the
empty record and an error. -/
theorem getMetrics_no_partial_record_witness :
    ∃ e, GetMetrics stubLib failDevice = (emptyMetrics, some e) :=
  getMetrics_no_partial_record stubLib failDevice (Or.inl (by decide))

/-- Claim C7: under normal operation every loop iteration emits exactly one
record and then sleeps 5 seconds, and the loop never terminates: after any
number of iterations the trace is that pattern repeated and the loop is
still running. -/
theorem loop_one_record_per_tick (lib : Nvml) (d : Device) (m : Metrics)
    (h : GetMetrics lib d = (m, none)) (n : Nat) :
    loopTrace lib d n =
      (List.flatten (List.replicate n [.emit (metricsJson m), .sleepSeconds 5]),
       .running) := by
  induction n with
  | zero => rfl
  | succ n ih => simp [loopTrace, h, ih, List.replicate_succ]

/-- Witness for claim C7 at the stub device, observed for two
iterations. -/
theorem loop_one_record_per_tick_witness :
    loopTrace stubLib stubDevice 2 =
      (List.flatten (List.replicate 2
        [.emit (metricsJson stubRecord), .sleepSeconds 5]), .running) :=
  loop_one_record_per_tick stubLib stubDevice stubRecord rfl 2

/-- Claim C8: on a failed library read each getter returns zero values for
every component together with an error whose message is exactly the
library's error string for the status code. -/
theorem getters_zero_and_error_string (lib : Nvml) (d : Device) :
    (d.Handle.temperature.2 ≠ SUCCESS →
      GetTemperature lib d =
        (0, some (deviceHandleErrorString lib d.Handle.temperature.2))) ∧
    (d.Handle.powerUsage.2 ≠ SUCCESS →
      GetPower lib d =
        (0, some (deviceHandleErrorString lib d.Handle.powerUsage.2))) ∧
    (d.Handle.memoryInfo.2 ≠ SUCCESS →
      GetUtilization lib d =
        (0, 0, 0, some (deviceHandleErrorString lib d.Handle.memoryInfo.2))) ∧
    (d.Handle.memoryInfo.2 = SUCCESS → d.Handle.utilizationRates.2 ≠ SUCCESS →
      GetUtilization lib d =
        (0, 0, 0, some (deviceHandleErrorString lib d.Handle.utilizationRates.2))) ∧
    (∀ ret, deviceHandleErrorString lib ret = lib.errorString ret) := by
  refine ⟨fun hT => ?_, fun hP => ?_, fun hM => ?_, fun hM hU => ?_, fun _ => rfl⟩
  · simp [GetTemperature, hT]
  · simp [GetPower, hP]
  · simp [GetUtilization, hM]
  · rcases e3 : d.Handle.memoryInfo with ⟨memory, retM⟩
    rw [e3] at hM
    simp only at hM
    subst hM
    simp [GetUtilization, e3, hU]

/-- Witness for claim C8: the all-failing device and the
utilization-failing device. -/
theorem getters_zero_and_error_string_witness :
    GetTemperature stubLib failDevice =
      (0, some (deviceHandleErrorString stubLib failDevice.Handle.temperature.2)) ∧
    GetPower stubLib failDevice =
      (0, some (deviceHandleErrorString stubLib failDevice.Handle.powerUsage.2)) ∧
    GetUtilization stubLib failDevice =
      (0, 0, 0, some (deviceHandleErrorString stubLib failDevice.Handle.memoryInfo.2)) ∧
    GetUtilization stubLib utilFailDevice =
      (0, 0, 0, some (deviceHandleErrorString stubLib utilFailDevice.Handle.utilizationRates.2)) :=
  ⟨(getters_zero_and_error_string stubLib failDevice).1 (by decide),
   (getters_zero_and_error_string stubLib failDevice).2.1 (by decide),
   (getters_zero_and_error_string stubLib failDevice).2.2.1 (by decide),
   (getters_zero_and_error_string stubLib utilFailDevice).2.2.2.1 rfl (by decide)⟩

/-- Claim C9: whenever `GetDevice` succeeds, the returned `Device` carries
the requested index, the UUID read from the resolved handle, and that
handle. -/
theorem getDevice_identity (lib : Nvml) (index : Int) (d : Device)
    (h : GetDevice lib index = .ok d) :
    d.Index = index ∧ d.UUID = (lib.deviceHandle index).1.uuid.1 ∧
    d.Handle = (lib.deviceHandle index).1 := by
  rcases hc : lib.deviceCount with ⟨count, retC⟩
  rcases hh : lib.deviceHandle index with ⟨device, retH⟩
  obtain ⟨⟨uuid, retU⟩, tmp, pw, mem, util⟩ := device
  unfold GetDevice at h
  rw [hc, hh] at h
  dsimp only at h
  split_ifs at h
  all_goals first
    | exact absurd h (fun hcon => GetDeviceResult.noConfusion hcon)
    | (injection h with h; subst h; exact ⟨rfl, rfl, rfl⟩)

/-- Witness for claim C9 at the stub library and index 0. -/
theorem getDevice_identity_witness :
    stubDevice.Index = 0 ∧ stubDevice.UUID = (stubLib.deviceHandle 0).1.uuid.1 ∧
    stubDevice.Handle = (stubLib.deviceHandle 0).1 :=
  getDevice_identity stubLib 0 stubDevice rfl

end Gpumon
